import Mathlib

/-!
Verification development for the Oak Functions runtime core
(`oak_functions/loader/src/server.rs` and `oak_functions/lookup/src/lib.rs`).

The Rust code is shallowly embedded: pure functions become Lean functions,
machine integers become `Nat` with explicit bounds where overflow matters,
fallible code returns `Except`, and the asynchronous structure of the policy
shaper is captured by a writer monad recording the scheduler-visible events
(task spawn, timer sleep, task sampling) in program order.
-/

/-- Byte sequences (`Vec<u8>` in the source). Each element is a byte value. -/
abbrev Bytes := List Nat

/-- Bytes of an ASCII string literal (`"...".as_bytes().to_vec()` in the
source); for the ASCII literals used by the server every `Char.toNat` is the
byte value. -/
def strBytes (s : String) : Bytes := s.data.map Char.toNat

/-- Modelled from the spec: response status codes are a closed enumeration
across `Success`, `InternalServerError`, `PolicyTimeViolation`,
`PolicySizeViolation` (the `StatusCode` proto enum of the
`oak_functions_abi` crate, which is not included under `src/`). -/
inductive StatusCode where
  | Success
  | InternalServerError
  | PolicyTimeViolation
  | PolicySizeViolation
deriving DecidableEq

/-- Modelled from the spec: a `Response` carries `{status, body, length}`
where `length` is the pre-padding body size (`Response` proto message of the
`oak_functions_abi` crate, which is not included under `src/`). The `length`
field is a `u64` in the source; values produced by the server are body
lengths, far below `2^64`, so plain `Nat` is faithful here. -/
structure Response where
  status : StatusCode
  body : Bytes
  length : Nat
deriving DecidableEq

/-- Modelled from the spec: `Response::create(status, body)` of the
`oak_functions_abi` crate builds a response from a status and an unpadded
body, so its `length` field is the body length. -/
def Response.create (status : StatusCode) (body : Bytes) : Response :=
  { status := status, body := body, length := body.length }

/-- `ServerPolicy` (validated policy) from the `oak_functions_abi` proto:
`{constant_response_size_bytes: u32, constant_processing_time_ms: u32}`.
Both fields are produced by `Policy::validate` below, which enforces the
`u32` range; the values are carried as `Nat`. -/
structure ServerPolicy where
  constant_response_size_bytes : Nat
  constant_processing_time_ms : Nat
deriving DecidableEq

/-- `MIN_RESPONSE_SIZE` from `loader/src/server.rs`. -/
def MIN_RESPONSE_SIZE : Nat := 50

/-- Largest value representable in a `u32`; `TryInto<u32>` on a larger
millisecond count fails in `Policy::validate`. -/
def U32_MAX : Nat := 2 ^ 32 - 1

/-- The unvalidated `Policy` read from the config
(`loader/src/server.rs`). The `constant_processing_time` field is a
`Duration`; `validate` only consumes its millisecond count
(`Duration::as_millis`, a `u128`), so the duration is represented by that
count. -/
structure Policy where
  constant_response_size_bytes : Nat
  constant_processing_time_millis : Nat
deriving DecidableEq

/-- `Policy::validate` from `loader/src/server.rs`: ensures
`constant_response_size_bytes >= MIN_RESPONSE_SIZE`, then converts the
duration's millisecond count to `u32` (failing when it does not fit).
No lower bound on the processing time is checked. -/
def Policy.validate (p : Policy) : Except String ServerPolicy :=
  if MIN_RESPONSE_SIZE ≤ p.constant_response_size_bytes then
    if p.constant_processing_time_millis ≤ U32_MAX then
      Except.ok
        { constant_response_size_bytes := p.constant_response_size_bytes,
          constant_processing_time_ms := p.constant_processing_time_millis }
    else Except.error ("could not convert milliseconds to u32")
  else Except.error ("Response size is too small")

/-- `FixedSizeBodyPadder::pad` for `Response` from `loader/src/server.rs`:
if the body fits in `body_size`, return a response with the same status,
the body extended by trailing zeros to exactly `body_size`
(`Vec::resize(body_size, 0)`), and the `length` field set to the
pre-padding body length; otherwise fail. -/
def Response.pad (r : Response) (body_size : Nat) : Except String Response :=
  if r.body.length ≤ body_size then
    Except.ok
      { status := r.status,
        body := r.body ++ List.replicate (body_size - r.body.length) 0,
        length := r.body.length }
  else Except.error ("response body is larger than the input body_size")

/-- Body of the canned time-violation response in `apply_policy`. -/
def reason_not_available : Bytes := strBytes ("Reason: response not available.")

/-- Body of the canned join-error response in `apply_policy`. -/
def reason_internal_error : Bytes := strBytes ("Reason: internal server error.")

/-- Body of the canned size-violation response in `apply_policy`. -/
def reason_too_large : Bytes := strBytes ("Reason: the response is too large.")

/-- The state of the spawned invocation task as sampled by
`task.now_or_never()` when the shaper's timer fires: still pending, failed
to join (the task panicked), finished with an `anyhow` error carrying some
message bytes, or finished with a response. -/
inductive TaskOutcome where
  | pending
  | joinError
  | functionError (msg : Bytes)
  | success (rsp : Response)
deriving DecidableEq

/-- The `match function_response` block of `apply_policy`
(`loader/src/server.rs`): turns the sampled task state into the
pre-size-check, pre-padding response. -/
def sampled_response (task : TaskOutcome) : Response :=
  match task with
  | TaskOutcome.pending =>
      Response.create StatusCode.PolicyTimeViolation reason_not_available
  | TaskOutcome.joinError =>
      Response.create StatusCode.InternalServerError reason_internal_error
  | TaskOutcome.functionError msg =>
      Response.create StatusCode.InternalServerError msg
  | TaskOutcome.success rsp => rsp

/-- The size check of `apply_policy`: a response whose body is strictly
larger than `constant_response_size_bytes` is replaced by the canned
`PolicySizeViolation` response. -/
def size_checked (policy : ServerPolicy) (response : Response) : Response :=
  if policy.constant_response_size_bytes < response.body.length then
    Response.create StatusCode.PolicySizeViolation reason_too_large
  else response

/-- Scheduler-visible events of `apply_policy`, in program order:
spawning the invocation task, awaiting the fixed-duration timer, and
sampling the task with `now_or_never`. -/
inductive ShaperEvent where
  | spawnTask
  | sleepMs (ms : Nat)
  | sampleTask
deriving DecidableEq

/-- Writer monad recording the shaper's scheduler-visible events. -/
abbrev ShaperM (α : Type) := List ShaperEvent × α

instance : Monad ShaperM where
  pure a := ([], a)
  bind x f := (x.1 ++ (f x.2).1, (f x.2).2)

/-- Record one scheduler-visible event. -/
def tell (e : ShaperEvent) : ShaperM Unit := ([e], ())

/-- `apply_policy` from `loader/src/server.rs`, with its asynchronous
structure made explicit: it spawns the invocation task, unconditionally
awaits a sleep of `constant_processing_time_ms`, then samples the task
(`now_or_never`), turns the sample into a response, applies the size check,
and pads the body to `constant_response_size_bytes`. The `task` argument is
the state the spawned task is in when the timer fires. (The
`try_into::<usize>()` on `constant_response_size_bytes` always succeeds and
is dropped; both sides are `Nat` here.) -/
def apply_policy (policy : ServerPolicy) (task : TaskOutcome) :
    ShaperM (Except String Response) := do
  tell ShaperEvent.spawnTask
  tell (ShaperEvent.sleepMs policy.constant_processing_time_ms)
  tell ShaperEvent.sampleTask
  let response := sampled_response task
  let response := size_checked policy response
  pure (response.pad policy.constant_response_size_bytes)

/-- The size check followed by padding: the shaping applied by
`apply_policy` to the sampled response. -/
def shape (policy : ServerPolicy) (response : Response) : Except String Response :=
  (size_checked policy response).pad policy.constant_response_size_bytes

/-! ## Lookup store and manager (`oak_functions/lookup/src/lib.rs`) -/

/-- `Data = HashMap<Vec<u8>, Vec<u8>>`: lookup data with at most one value
per key, modelled by its lookup function. -/
def Data : Type := Bytes → Option Bytes

/-- The empty map (`Data::new()`, also the `Default` used by
`core::mem::take`). -/
def Data.emptyMap : Data := fun _ => none

/-- `HashMap::extend`: entries of `new_data` overwrite entries of `old`. -/
def Data.extendMap (old new_data : Data) : Data := fun k =>
  match new_data k with
  | some v => some v
  | none => old k

/-- `BuilderState` from `lookup/src/lib.rs`; `Empty` is the default. -/
inductive BuilderState where
  | Empty
  | Updating
deriving DecidableEq

/-- `DataBuilder` from `lookup/src/lib.rs`: data being built plus the
builder state. -/
structure DataBuilder where
  data : Data
  state : BuilderState

/-- `DataBuilder::extend`: set the state to `Updating` and extend the
builder's data with `new_data` (new entries overwrite). -/
def DataBuilder.extend (b : DataBuilder) (new_data : Data) : DataBuilder :=
  { data := Data.extendMap b.data new_data, state := BuilderState.Updating }

/-- `DataBuilder::build`: return the built data and reset the builder to the
initial state (`mem::take` leaves the default empty map, state `Empty`). -/
def DataBuilder.build (b : DataBuilder) : Data × DataBuilder :=
  (b.data, { data := Data.emptyMap, state := BuilderState.Empty })

/-- `UpdateAction` from `lookup/src/lib.rs`: only `StartAndFinish` exists. -/
inductive UpdateAction where
  | StartAndFinish

/-- `UpdateStatus` from `lookup/src/lib.rs`. -/
inductive UpdateStatus where
  | Started
  | Finished
  | Aborted
deriving DecidableEq

/-- `LookupDataManager` (logger dropped): the current snapshot
(`Spinlock<Arc<Data>>`, whose contents are replaced, never mutated) and the
`DataBuilder`. The `Arc` clone-by-handle discipline is embedded by value:
readers copy the current `Data` value, and an update builds a manager with a
new value. -/
structure LookupDataManager where
  data : Data
  data_builder : DataBuilder

/-- `LookupDataManager::new_empty`. -/
def LookupDataManager.new_empty : LookupDataManager :=
  { data := Data.emptyMap,
    data_builder := { data := Data.emptyMap, state := BuilderState.Empty } }

/-- `LookupDataManager::for_test`: a fresh manager whose current snapshot is
replaced by `d`. -/
def LookupDataManager.for_test (d : Data) : LookupDataManager :=
  { LookupDataManager.new_empty with data := d }

/-- `LookupDataManager::update_data`: with the builder lock held, match on
the builder state and the action. From `Empty`, extend the builder with
`new_data`, build, install the result as the current snapshot and report
`Finished`; from `Updating`, discard the partial builder data (build,
dropping the result) and report `Aborted`, leaving the snapshot unchanged. -/
def LookupDataManager.update_data (m : LookupDataManager) (action : UpdateAction)
    (new_data : Data) : LookupDataManager × UpdateStatus :=
  match m.data_builder.state, action with
  | BuilderState.Empty, UpdateAction.StartAndFinish =>
      let b := m.data_builder.extend new_data
      let built := b.build
      ({ data := built.1, data_builder := built.2 }, UpdateStatus.Finished)
  | BuilderState.Updating, UpdateAction.StartAndFinish =>
      let built := m.data_builder.build
      ({ data := m.data, data_builder := built.2 }, UpdateStatus.Aborted)

/-- `LookupData` (logger dropped): a handle to the snapshot it was created
with; the `Arc<Data>` clone is embedded as the captured `Data` value. -/
structure LookupData where
  data : Data

/-- `LookupDataManager::create_lookup_data`: clone the current snapshot
handle. -/
def LookupDataManager.create_lookup_data (m : LookupDataManager) : LookupData :=
  { data := m.data }

/-- `LookupData::get`: pure map lookup. -/
def LookupData.get (l : LookupData) (key : Bytes) : Option Bytes := l.data key

/-- Managers reachable through the public constructors and operations of
`LookupDataManager`. -/
inductive ReachableManager : LookupDataManager → Prop where
  | new_empty : ReachableManager LookupDataManager.new_empty
  | for_test (d : Data) : ReachableManager (LookupDataManager.for_test d)
  | update (m : LookupDataManager) (a : UpdateAction) (d : Data) :
      ReachableManager m → ReachableManager (m.update_data a d).1

/-! ## Channel fabric (`loader/src/server.rs`) -/

/-- A message sent over a UWABI channel (`UwabiMessage = Vec<u8>`). -/
abbrev UwabiMessage := Bytes

/-- `UWABI_CHANNEL_BOUND` from `loader/src/server.rs`: capacity of each
unidirectional queue. -/
def UWABI_CHANNEL_BOUND : Nat := 100

/-- `ChannelStatus` codes of the `oak_functions_abi` proto surfaced by the
channel operations in `loader/src/server.rs`. -/
inductive ChannelStatus where
  | ChannelOk
  | ChannelEmpty
  | ChannelFull
  | ChannelHandleInvalid
  | ChannelEndpointDisconnected
  | ChannelEndpointClosed
  | ChannelInvalidArgs
deriving DecidableEq

/-- State of the channel pair made by `channel_create`: the pending messages
of the two underlying unidirectional mpsc queues, both open. `queue0` is the
queue fed by endpoint 0's sender (`tx0`) and drained by endpoint 1's
receiver (`rx0`); `queue1` the reverse. Messages are received in send order
(FIFO). -/
structure ChannelPairState where
  queue0 : List UwabiMessage
  queue1 : List UwabiMessage
deriving DecidableEq

/-- The two endpoints returned by `channel_create`: endpoint 0 holds
`(tx0, rx1)`, endpoint 1 holds `(tx1, rx0)` — the crossed wiring. -/
inductive EndpointId where
  | endpoint0
  | endpoint1
deriving DecidableEq

/-- `channel_create`: both underlying queues start empty. -/
def channel_create : ChannelPairState := { queue0 := [], queue1 := [] }

/-- `Sender::try_send` on the sender half owned by endpoint `e`: append to
the queue that endpoint's `tx` feeds, failing with `ChannelFull` at
capacity. (Both receivers are open here, so `ChannelEndpointClosed` does not
arise in this state.) -/
def ChannelPairState.send (s : ChannelPairState) (e : EndpointId)
    (m : UwabiMessage) : Except ChannelStatus ChannelPairState :=
  match e with
  | EndpointId.endpoint0 =>
      if s.queue0.length < UWABI_CHANNEL_BOUND then
        Except.ok { s with queue0 := s.queue0 ++ [m] }
      else Except.error ChannelStatus.ChannelFull
  | EndpointId.endpoint1 =>
      if s.queue1.length < UWABI_CHANNEL_BOUND then
        Except.ok { s with queue1 := s.queue1 ++ [m] }
      else Except.error ChannelStatus.ChannelFull

/-- `Receiver::try_recv` on the receiver half owned by endpoint `e`: take
the oldest pending message of the queue that endpoint's `rx` drains, failing
with `ChannelEmpty` when none is pending. (Both senders are alive here, so
`ChannelEndpointDisconnected` does not arise in this state.) -/
def ChannelPairState.try_recv (s : ChannelPairState) (e : EndpointId) :
    Except ChannelStatus (UwabiMessage × ChannelPairState) :=
  match e with
  | EndpointId.endpoint0 =>
      match s.queue1 with
      | [] => Except.error ChannelStatus.ChannelEmpty
      | m :: rest => Except.ok (m, { s with queue1 := rest })
  | EndpointId.endpoint1 =>
      match s.queue0 with
      | [] => Except.error ChannelStatus.ChannelEmpty
      | m :: rest => Except.ok (m, { s with queue0 := rest })

/-! ## Per-request Wasm invocation (`loader/src/server.rs`) -/

/-- Result of `instance.invoke_export("main", ...)`: normal completion or a
trap (out-of-bounds access, unreachable, ...). -/
inductive MainResult where
  | completed
  | trapped
deriving DecidableEq

/-- Observable behavior of one guest run of `main`: the successive payloads
it passed to `write_response` before finishing, and whether `main` completed
or trapped. -/
structure GuestBehavior where
  writes : List Bytes
  result : MainResult

/-- The fields of the loader's `WasmState` the request/response path uses:
the request bytes and the response bytes (initially empty, replaced by each
`write_response`, last writer wins). -/
structure WasmState where
  request_bytes : Bytes
  response_bytes : Bytes

/-- `WasmState::invoke`: run `main`, letting each `write_response` replace
`response_bytes`; the result of `invoke_export` (`g.result`, in particular a
trap) is only logged and is discarded. -/
def WasmState.invoke (s : WasmState) (g : GuestBehavior) : WasmState :=
  { s with response_bytes := g.writes.foldl (fun _last w => w) s.response_bytes }

/-- `WasmHandler::handle_invoke`: build a fresh `WasmState` for the request
(empty response bytes), run `invoke`, terminate the native extensions
(`terminate()?`; the aggregated outcome is the `terminate_result` argument),
and return a `Success` response wrapping the collected response bytes.
`invoke`'s discarded trap never reaches this result. -/
def handle_invoke (g : GuestBehavior) (terminate_result : Except String Unit)
    (request : Bytes) : Except String Response :=
  let wasm_state : WasmState := { request_bytes := request, response_bytes := [] }
  let wasm_state := wasm_state.invoke g
  match terminate_result with
  | Except.error e => Except.error e
  | Except.ok _ => Except.ok (Response.create StatusCode.Success wasm_state.response_bytes)

/-! ## Concrete inputs used by the witnesses -/

/-- A concrete one-entry lookup map. -/
def dataOne : Data := fun k => if k = [1] then some [2] else none

/-- A concrete manager whose builder was caught in the `Updating` state
(such a state is reserved for a future two-phase update and is not reachable
through the current operations, so it is constructed directly). -/
def managerUpdating : LookupDataManager :=
  { data := dataOne, data_builder := { data := dataOne, state := BuilderState.Updating } }

/-- The response shaped by the policy `{N := 50, T := 100ms}` from a success
response with body `[104, 105]`: body zero-padded to 50 bytes, pre-padding
length 2. -/
def shaped_hi : Response :=
  { status := StatusCode.Success, body := [104, 105] ++ List.replicate 48 0, length := 2 }

/-! ## Helper lemmas -/

/-- The canned size-violation body is 34 bytes long. -/
theorem reason_too_large_length : reason_too_large.length = 34 := by decide

/-- Extending the empty map installs exactly the new map. -/
theorem Data.extendMap_empty (d : Data) : Data.extendMap Data.emptyMap d = d := by
  funext k
  unfold Data.extendMap Data.emptyMap
  cases hd : d k <;> simp [hd]

/-- Every reachable manager has its builder in the reset state: builder
state `Empty` with an empty builder map (`new_empty` and `for_test` start
there, and both branches of `update_data` end with `DataBuilder::build`,
which resets the builder). -/
theorem reachable_builder_reset (m : LookupDataManager) (h : ReachableManager m) :
    m.data_builder = { data := Data.emptyMap, state := BuilderState.Empty } := by
  induction h with
  | new_empty => rfl
  | for_test d => rfl
  | update m a d hm ih =>
      cases a
      cases hstate : m.data_builder.state <;>
        simp [LookupDataManager.update_data, DataBuilder.extend, DataBuilder.build, hstate]

/-- After the size check, the body fits in the policy size whenever the
policy size is at least `MIN_RESPONSE_SIZE` (the canned size-violation body
is 34 bytes, below the 50-byte minimum). -/
theorem size_checked_body_le (policy : ServerPolicy) (r : Response)
    (h : MIN_RESPONSE_SIZE ≤ policy.constant_response_size_bytes) :
    (size_checked policy r).body.length ≤ policy.constant_response_size_bytes := by
  have h34 := reason_too_large_length
  unfold MIN_RESPONSE_SIZE at h
  unfold size_checked
  split
  · simp [Response.create]
    omega
  · omega

/-! ## Claim theorems -/

/-- Claim C1: for every `ServerPolicy` whose `constant_response_size_bytes`
is at least 50 (`MIN_RESPONSE_SIZE`) and every invocation outcome (success,
user error, framework error, or timeout), `apply_policy` returns `Ok` with a
`Response` whose body has byte length exactly
`constant_response_size_bytes`, and whose `length` field records the
pre-padding body size. -/
theorem apply_policy_constant_response_size (policy : ServerPolicy) (task : TaskOutcome)
    (h : MIN_RESPONSE_SIZE ≤ policy.constant_response_size_bytes) :
    ∃ r : Response,
      (apply_policy policy task).2 = Except.ok r ∧
      r.body.length = policy.constant_response_size_bytes ∧
      r.length = (size_checked policy (sampled_response task)).body.length := by
  have hle := size_checked_body_le policy (sampled_response task) h
  have h2 : (apply_policy policy task).2 =
      (size_checked policy (sampled_response task)).pad
        policy.constant_response_size_bytes := rfl
  rw [h2]
  unfold Response.pad
  rw [if_pos hle]
  refine ⟨_, rfl, ?_, rfl⟩
  simp
  omega

/-- Witness for C1 at the policy `{N := 50, T := 100ms}` and a still-pending
task. -/
theorem apply_policy_constant_response_size_witness :
    MIN_RESPONSE_SIZE ≤ (50 : Nat) ∧
    ∃ r : Response,
      (apply_policy { constant_response_size_bytes := 50, constant_processing_time_ms := 100 }
          TaskOutcome.pending).2 = Except.ok r ∧
      r.body.length = 50 ∧
      r.length = (size_checked
          { constant_response_size_bytes := 50, constant_processing_time_ms := 100 }
          (sampled_response TaskOutcome.pending)).body.length :=
  ⟨by decide,
   apply_policy_constant_response_size
     { constant_response_size_bytes := 50, constant_processing_time_ms := 100 }
     TaskOutcome.pending (by decide)⟩

/-- Claim C2: `apply_policy` always performs the full
`constant_processing_time_ms` sleep before sampling the invocation task —
its scheduler-event trace is `[spawn, sleep T, sample]` for every task
state, in particular also when the task already finished — and when the task
has not completed at the timer, the pre-padding response has status
`PolicyTimeViolation` and body `"Reason: response not available."`. -/
theorem apply_policy_always_waits_timer (policy : ServerPolicy) (task : TaskOutcome) :
    (apply_policy policy task).1 =
      [ShaperEvent.spawnTask, ShaperEvent.sleepMs policy.constant_processing_time_ms,
       ShaperEvent.sampleTask] ∧
    (task = TaskOutcome.pending →
      sampled_response task =
        Response.create StatusCode.PolicyTimeViolation reason_not_available) :=
  ⟨rfl, fun h => by rw [h]; rfl⟩

/-- Witness for C2 at the policy `{N := 50, T := 100ms}` and a pending
task. -/
theorem apply_policy_always_waits_timer_witness :
    (apply_policy { constant_response_size_bytes := 50, constant_processing_time_ms := 100 }
        TaskOutcome.pending).1 =
      [ShaperEvent.spawnTask, ShaperEvent.sleepMs 100, ShaperEvent.sampleTask] ∧
    sampled_response TaskOutcome.pending =
      Response.create StatusCode.PolicyTimeViolation reason_not_available :=
  ⟨(apply_policy_always_waits_timer
      { constant_response_size_bytes := 50, constant_processing_time_ms := 100 }
      TaskOutcome.pending).1,
   (apply_policy_always_waits_timer
      { constant_response_size_bytes := 50, constant_processing_time_ms := 100 }
      TaskOutcome.pending).2 rfl⟩

/-- Claim C3: in `apply_policy`, a sampled response whose body length
strictly exceeds `constant_response_size_bytes` is replaced by the canned
`PolicySizeViolation` response with body
`"Reason: the response is too large."`; a body of length exactly
`constant_response_size_bytes` is not replaced. -/
theorem size_check_boundary (policy : ServerPolicy) (r : Response) :
    (policy.constant_response_size_bytes < r.body.length →
      size_checked policy r =
        Response.create StatusCode.PolicySizeViolation reason_too_large) ∧
    (r.body.length = policy.constant_response_size_bytes →
      size_checked policy r = r) := by
  constructor
  · intro h
    unfold size_checked
    rw [if_pos h]
  · intro h
    unfold size_checked
    rw [if_neg (by omega)]

/-- Witness for C3 at the boundary: a 51-byte body is replaced under
`N = 50`, a 50-byte body is not. -/
theorem size_check_boundary_witness :
    size_checked { constant_response_size_bytes := 50, constant_processing_time_ms := 100 }
        (Response.create StatusCode.Success (List.replicate 51 0)) =
      Response.create StatusCode.PolicySizeViolation reason_too_large ∧
    size_checked { constant_response_size_bytes := 50, constant_processing_time_ms := 100 }
        (Response.create StatusCode.Success (List.replicate 50 0)) =
      Response.create StatusCode.Success (List.replicate 50 0) :=
  ⟨(size_check_boundary
      { constant_response_size_bytes := 50, constant_processing_time_ms := 100 }
      (Response.create StatusCode.Success (List.replicate 51 0))).1 (by decide),
   (size_check_boundary
      { constant_response_size_bytes := 50, constant_processing_time_ms := 100 }
      (Response.create StatusCode.Success (List.replicate 50 0))).2 (by decide)⟩

/-- Counterexample for C4: the policy with `constant_response_size_bytes =
50` and a zero processing time violates the claimed `T ≥ 1 ms` bound, yet
`Policy::validate` returns `Ok`; the source checks only the response-size
bound and the `u32` conversion. -/
theorem validate_accepts_zero_processing_time :
    Policy.validate { constant_response_size_bytes := 50,
                      constant_processing_time_millis := 0 } =
      Except.ok { constant_response_size_bytes := 50, constant_processing_time_ms := 0 } ∧
    ¬ (1 ≤ (0 : Nat)) :=
  ⟨rfl, by decide⟩

/-- Claim C4 (amended): `Policy::validate` succeeds exactly when
`constant_response_size_bytes ≥ 50` and the configured duration's
millisecond count fits in a `u32`; no lower bound on the processing time is
enforced. -/
theorem validate_ok_iff (p : Policy) :
    (∃ sp : ServerPolicy, p.validate = Except.ok sp) ↔
      (MIN_RESPONSE_SIZE ≤ p.constant_response_size_bytes ∧
        p.constant_processing_time_millis ≤ U32_MAX) := by
  unfold Policy.validate
  constructor
  · intro ⟨sp, hsp⟩
    by_cases h1 : MIN_RESPONSE_SIZE ≤ p.constant_response_size_bytes
    · by_cases h2 : p.constant_processing_time_millis ≤ U32_MAX
      · exact ⟨h1, h2⟩
      · rw [if_pos h1, if_neg h2] at hsp
        exact Except.noConfusion hsp
    · rw [if_neg h1] at hsp
      exact Except.noConfusion hsp
  · intro ⟨h1, h2⟩
    rw [if_pos h1, if_pos h2]
    exact ⟨_, rfl⟩

/-- Witness for the amended C4 at the policy `{N := 50, T := 7ms}`. -/
theorem validate_ok_iff_witness :
    ∃ sp : ServerPolicy,
      Policy.validate { constant_response_size_bytes := 50,
                        constant_processing_time_millis := 7 } = Except.ok sp :=
  (validate_ok_iff { constant_response_size_bytes := 50,
                     constant_processing_time_millis := 7 }).mpr (by decide)

/-- Counterexample for C5: a guest that traps during `main` (writing
nothing) does not produce an `InternalServerError` response —
`WasmState::invoke` discards the trap, `handle_invoke` returns a `Success`
response, and `apply_policy` keeps that status. -/
theorem trapped_guest_success_counterexample :
    handle_invoke { writes := [], result := MainResult.trapped } (Except.ok ()) [] =
      Except.ok (Response.create StatusCode.Success []) ∧
    (apply_policy { constant_response_size_bytes := 50, constant_processing_time_ms := 100 }
        (TaskOutcome.success (Response.create StatusCode.Success []))).2 =
      Except.ok { status := StatusCode.Success, body := List.replicate 50 0, length := 0 } ∧
    StatusCode.Success ≠ StatusCode.InternalServerError :=
  ⟨rfl, rfl, by decide⟩

/-- Claim C5 (amended): a guest trap during `main` is logged and discarded
by `WasmState::invoke`: `handle_invoke` returns `Ok` with a `Success`
response carrying the last bytes written before the trap (empty if none),
exactly as for a completed run with the same writes. Only a host-side panic
(for example a failed `alloc`), which fails the spawned task, surfaces as
`InternalServerError` through `apply_policy`'s join-error branch. -/
theorem handle_invoke_ignores_trap (g : GuestBehavior) (request : Bytes) :
    handle_invoke g (Except.ok ()) request =
      Except.ok (Response.create StatusCode.Success
        (g.writes.foldl (fun _last w => w) [])) ∧
    handle_invoke { writes := g.writes, result := MainResult.trapped }
        (Except.ok ()) request =
      handle_invoke { writes := g.writes, result := MainResult.completed }
        (Except.ok ()) request ∧
    sampled_response TaskOutcome.joinError =
      Response.create StatusCode.InternalServerError reason_internal_error :=
  ⟨rfl, rfl, rfl⟩

/-- Claim C6: a `LookupData` handle obtained from `create_lookup_data`
keeps returning the values of the snapshot it was created with — the
embedding of the `Arc` clone captures the snapshot by value, so
`update_data` cannot change the handle's `get` results — while a handle
created after a finished update observes the newly installed data. -/
theorem lookup_snapshot_immutability (m : LookupDataManager) (new_data : Data)
    (key : Bytes) (hreach : ReachableManager m) :
    (m.create_lookup_data).get key = m.data key ∧
    (m.update_data UpdateAction.StartAndFinish new_data).2 = UpdateStatus.Finished ∧
    ((m.update_data UpdateAction.StartAndFinish new_data).1.create_lookup_data).get key
      = new_data key := by
  have hb := reachable_builder_reset m hreach
  refine ⟨rfl, ?_, ?_⟩ <;>
    simp [LookupDataManager.update_data, hb, DataBuilder.extend, DataBuilder.build,
      Data.extendMap_empty, LookupDataManager.create_lookup_data, LookupData.get]

/-- Witness for C6 on a fresh empty manager, the one-entry map `dataOne`,
and the key `[1]`. -/
theorem lookup_snapshot_immutability_witness :
    ((LookupDataManager.new_empty.create_lookup_data).get [1] =
        LookupDataManager.new_empty.data [1] ∧
      (LookupDataManager.new_empty.update_data UpdateAction.StartAndFinish dataOne).2 =
        UpdateStatus.Finished ∧
      ((LookupDataManager.new_empty.update_data UpdateAction.StartAndFinish
          dataOne).1.create_lookup_data).get [1] = dataOne [1]) ∧
    dataOne [1] = some [2] :=
  ⟨lookup_snapshot_immutability LookupDataManager.new_empty dataOne [1]
      ReachableManager.new_empty,
   rfl⟩

/-- Claim C7: `update_data(StartAndFinish, new_map)` on a reachable manager
(whose builder is therefore in the reset `Empty` state with an empty builder
map) installs exactly `new_map` as the current snapshot, resets the builder,
and returns `Finished`; on a manager whose builder is in the `Updating`
state it discards the partial builder data, resets the builder to `Empty`,
returns `Aborted`, and leaves the current snapshot unchanged. -/
theorem update_data_transitions (m m2 : LookupDataManager) (new_data : Data)
    (hreach : ReachableManager m) (h1 : m.data_builder.state = BuilderState.Empty)
    (h2 : m2.data_builder.state = BuilderState.Updating) :
    m.update_data UpdateAction.StartAndFinish new_data =
      ({ data := new_data,
         data_builder := { data := Data.emptyMap, state := BuilderState.Empty } },
       UpdateStatus.Finished) ∧
    m2.update_data UpdateAction.StartAndFinish new_data =
      ({ data := m2.data,
         data_builder := { data := Data.emptyMap, state := BuilderState.Empty } },
       UpdateStatus.Aborted) := by
  have hb := reachable_builder_reset m hreach
  have hdata : m.data_builder.data = Data.emptyMap := by rw [hb]
  constructor
  · simp [LookupDataManager.update_data, h1, hdata, DataBuilder.extend, DataBuilder.build,
      Data.extendMap_empty]
  · simp [LookupDataManager.update_data, h2, DataBuilder.build]

/-- Witness for C7: the fresh empty manager for the `Empty` branch and a
directly constructed `Updating`-state manager for the `Updating` branch. -/
theorem update_data_transitions_witness :
    LookupDataManager.new_empty.update_data UpdateAction.StartAndFinish dataOne =
      ({ data := dataOne,
         data_builder := { data := Data.emptyMap, state := BuilderState.Empty } },
       UpdateStatus.Finished) ∧
    managerUpdating.update_data UpdateAction.StartAndFinish dataOne =
      ({ data := managerUpdating.data,
         data_builder := { data := Data.emptyMap, state := BuilderState.Empty } },
       UpdateStatus.Aborted) :=
  update_data_transitions LookupDataManager.new_empty managerUpdating dataOne
    ReachableManager.new_empty rfl rfl

/-- Claim C8: after `channel_create`, a message sent on endpoint 0's sender
is received unchanged by endpoint 1's receiver, and symmetrically a message
sent on endpoint 1 is received by endpoint 0 — the crossed wiring. -/
theorem channel_create_crossed_wiring (m : UwabiMessage) :
    (channel_create.send EndpointId.endpoint0 m =
        Except.ok { queue0 := [m], queue1 := [] } ∧
      ({ queue0 := [m], queue1 := [] } : ChannelPairState).try_recv EndpointId.endpoint1 =
        Except.ok (m, channel_create)) ∧
    (channel_create.send EndpointId.endpoint1 m =
        Except.ok { queue0 := [], queue1 := [m] } ∧
      ({ queue0 := [], queue1 := [m] } : ChannelPairState).try_recv EndpointId.endpoint0 =
        Except.ok (m, channel_create)) :=
  ⟨⟨rfl, rfl⟩, ⟨rfl, rfl⟩⟩

/-- Counterexample for C9: shaping the success response with 2-byte body
`[104, 105]` under the policy `{N := 50, T := 100ms}` yields `shaped_hi`
with `length = 2`; re-applying the size check and pad to `shaped_hi` yields
a response whose `length` field is 50, not 2 — re-shaping changes the
already-shaped response. -/
theorem reshape_changes_length_counterexample :
    shape { constant_response_size_bytes := 50, constant_processing_time_ms := 100 }
        (Response.create StatusCode.Success [104, 105]) = Except.ok shaped_hi ∧
    shape { constant_response_size_bytes := 50, constant_processing_time_ms := 100 }
        shaped_hi = Except.ok { shaped_hi with length := 50 } ∧
    ({ shaped_hi with length := 50 } : Response) ≠ shaped_hi :=
  ⟨rfl, rfl, by decide⟩

/-- Claim C9 (amended): re-applying the shaper's size check and pad to an
already-shaped response leaves the status and body unchanged, but sets the
`length` field to `constant_response_size_bytes` (the shaped body's full
length); so re-shaping is a no-op exactly when the original pre-padding
length already equalled the policy size. -/
theorem reshape_preserves_status_body (policy : ServerPolicy) (r shaped : Response)
    (h : shape policy r = Except.ok shaped) :
    shaped.body.length = policy.constant_response_size_bytes ∧
    shape policy shaped =
      Except.ok { status := shaped.status, body := shaped.body,
                  length := policy.constant_response_size_bytes } := by
  have hlen : shaped.body.length = policy.constant_response_size_bytes := by
    unfold shape Response.pad at h
    by_cases hle :
        (size_checked policy r).body.length ≤ policy.constant_response_size_bytes
    · rw [if_pos hle] at h
      injection h with h
      rw [← h]
      simp
      omega
    · rw [if_neg hle] at h
      exact Except.noConfusion h
  refine ⟨hlen, ?_⟩
  unfold shape size_checked
  rw [if_neg (by omega)]
  unfold Response.pad
  rw [if_pos (by omega)]
  rw [hlen]
  simp

/-- Witness for the amended C9 at the policy `{N := 50, T := 100ms}` and
the shaped response `shaped_hi`. -/
theorem reshape_preserves_status_body_witness :
    shaped_hi.body.length = 50 ∧
    shape { constant_response_size_bytes := 50, constant_processing_time_ms := 100 }
        shaped_hi =
      Except.ok { status := shaped_hi.status, body := shaped_hi.body, length := 50 } :=
  reshape_preserves_status_body
    { constant_response_size_bytes := 50, constant_processing_time_ms := 100 }
    (Response.create StatusCode.Success [104, 105]) shaped_hi rfl

/-- Claim C10: for every `Policy` whose configured duration has a
millisecond count above `u32::MAX`, `Policy::validate` returns an error
rather than truncating or wrapping; consequently every `ServerPolicy`
produced by `validate` carries `constant_processing_time_ms` exactly equal
to the configured duration's millisecond count. -/
theorem validate_millis_exact (p : Policy) :
    (U32_MAX < p.constant_processing_time_millis →
      ∃ e : String, p.validate = Except.error e) ∧
    (∀ sp : ServerPolicy, p.validate = Except.ok sp →
      sp.constant_processing_time_ms = p.constant_processing_time_millis) := by
  unfold Policy.validate
  constructor
  · intro hgt
    by_cases h1 : MIN_RESPONSE_SIZE ≤ p.constant_response_size_bytes
    · rw [if_pos h1, if_neg (by omega)]
      exact ⟨_, rfl⟩
    · rw [if_neg h1]
      exact ⟨_, rfl⟩
  · intro sp hsp
    by_cases h1 : MIN_RESPONSE_SIZE ≤ p.constant_response_size_bytes
    · by_cases h2 : p.constant_processing_time_millis ≤ U32_MAX
      · rw [if_pos h1, if_pos h2] at hsp
        injection hsp with hsp
        rw [← hsp]
      · rw [if_pos h1, if_neg h2] at hsp
        exact Except.noConfusion hsp
    · rw [if_neg h1] at hsp
      exact Except.noConfusion hsp

/-- Witness for C10: a duration of `2^32` milliseconds is rejected, and the
validated policy for a 7 ms duration carries exactly 7. -/
theorem validate_millis_exact_witness :
    (∃ e : String,
      Policy.validate { constant_response_size_bytes := 50,
                        constant_processing_time_millis := 2 ^ 32 } = Except.error e) ∧
    ({ constant_response_size_bytes := 50,
       constant_processing_time_ms := 7 } : ServerPolicy).constant_processing_time_ms = 7 :=
  ⟨(validate_millis_exact ⟨50, 2 ^ 32⟩).1 (by decide),
   (validate_millis_exact ⟨50, 7⟩).2 ⟨50, 7⟩ rfl⟩
